import Mathlib

/-!
Shallow embedding of the libdns Hetzner/Vercel DNS provider client and
proofs about its record-normalization, TTL-translation, upsert-dispatch
and zone-resolution logic.

Strings are modelled as `List Char`.  Go `time.Duration` values are
modelled as nonnegative nanosecond counts (`Nat`); `int(d.Seconds())`
becomes truncating natural division by `nsPerSec`.
-/

/-- Nanoseconds per second: Go `time.Second` as a `time.Duration` count. -/
def nsPerSec : Nat := 1000000000

/-- Go `strings.TrimSuffix(s, z)`: if `z` is a suffix of `s`, return
`s[:len(s)-len(z)]`, otherwise `s` unchanged. -/
def trimSuffix (s z : List Char) : List Char :=
  if z <:+ s then s.take (s.length - z.length) else s

/-- Modelled from the spec: the repository's `unFQDN` helper is referenced by
`normalizeRecordName` in both provider files but defined outside the provided
sources.  Per spec §4.1 it strips a single trailing `"."` from its argument if
present, which is `strings.TrimSuffix(s, ".")`. -/
def unFQDN (s : List Char) : List Char :=
  trimSuffix s ['.']

namespace Vercel

/-- `normalizeRecordName` from the Vercel provider (client.go):
`unFQDN(strings.TrimSuffix(unFQDN(recordName), unFQDN(zone)))`. -/
def normalizeRecordName (recordName : List Char) (zone : List Char) : List Char :=
  unFQDN (trimSuffix (unFQDN recordName) (unFQDN zone))

end Vercel

namespace Hetzner

/-- `normalizeRecordName` from the Hetzner provider (identical text to the
Vercel one): `unFQDN(strings.TrimSuffix(unFQDN(recordName), unFQDN(zone)))`. -/
def normalizeRecordName (recordName : List Char) (zone : List Char) : List Char :=
  unFQDN (trimSuffix (unFQDN recordName) (unFQDN zone))

end Hetzner

/-- "Strip a single trailing `.` if present", written directly from the
spec's wording (drop the last character when it is a dot). -/
def stripTrailingDot (s : List Char) : List Char :=
  if s.getLast? = some '.' then s.dropLast else s

/-- The name-normalization algorithm exactly as spec §4.1 words it:
strip one trailing dot from the name, strip one trailing dot from the zone,
remove the stripped zone when it is a suffix of the stripped name, then
strip one trailing dot again. -/
def normalizeSpecAlg (name : List Char) (zone : List Char) : List Char :=
  stripTrailingDot
    (if stripTrailingDot zone <:+ stripTrailingDot name then
      (stripTrailingDot name).take
        ((stripTrailingDot name).length - (stripTrailingDot zone).length)
    else stripTrailingDot name)

/-! ### Operation model

Every provider operation is a pure function of an environment that fixes the
decoded outcome of each HTTP endpoint the operation may hit.  An operation
returns its Go result — the returned value together with the returned error,
mirroring Go's `(value, error)` multi-return, or a panic — paired with the
list of provider calls it issued, in order. -/

/-- A Go function outcome: a returned `(value, error)` pair, or a runtime
panic (such as an out-of-range slice index). -/
inductive GoResult (ε α : Type) where
  | ret (val : α) (err : Option ε)
  | panicked

/-- Errors surfaced by the providers' plumbing: a non-2xx transport failure,
a JSON decode failure, or the Hetzner "zone is ambiguous" error. -/
inductive PErr where
  | transport (status : Nat)
  | decode
  | ambiguous

/-- `libdns.Record`.  The Go field `Type` is rendered `typ` (`Type` is a Lean
keyword); `TTL` is a `time.Duration`, i.e. a count of nanoseconds. -/
structure LibdnsRecord where
  ID : List Char
  typ : List Char
  Name : List Char
  Value : List Char
  TTL : Nat

/-- `libdns.Record{}`, the zero record Go returns on the error paths. -/
def zeroRecord : LibdnsRecord :=
  { ID := [], typ := [], Name := [], Value := [], TTL := 0 }

namespace Vercel

/-- The Vercel wire record (`VercelRecord` in client.go). -/
structure VercelRecord where
  Id : List Char
  typ : List Char
  Name : List Char
  Value : List Char
  TTL : Nat

/-- The decoded fields of a Vercel create-response body.  Go decodes it into
`createRecordResponse`, which reads only `uid`; the other fields stand for
the rest of the response body. -/
structure CreateRespBody where
  uid : List Char
  typ : List Char
  Name : List Char
  Value : List Char
  TTL : Nat

/-- One provider call issued by a Vercel operation. -/
inductive Call where
  | getRecords
  | create (payload : VercelRecord)
  | delete (id : List Char)

/-- `true` exactly on delete calls. -/
def Call.isDelete : Call → Bool
  | .delete _ => true
  | _ => false

/-- `true` when no call in the list is a delete call. -/
def hasNoDelete (calls : List Call) : Bool :=
  calls.all fun c => ! c.isDelete

/-- Decoded outcome of each Vercel endpoint an operation may hit. -/
structure Env where
  createResp : Except PErr CreateRespBody
  deleteResp : Option PErr

/-- The outbound payload built by Vercel `createRecord`: name normalized,
TTL is `int(math.Max(r.TTL.Seconds(), 60))`. -/
def outboundRecord (zone : List Char) (r : LibdnsRecord) : VercelRecord :=
  { Id := [], typ := r.typ, Name := normalizeRecordName r.Name zone,
    Value := r.Value, TTL := max (r.TTL / nsPerSec) 60 }

/-- Vercel `createRecord`: POST the outbound payload, decode only `uid` from
the response, and build the returned record from the input plus that `uid`
(its `TTL` field is left at the zero value). -/
def createRecord (env : Env) (zone : List Char) (r : LibdnsRecord) :
    GoResult PErr LibdnsRecord × List Call :=
  match env.createResp with
  | .error e => (.ret zeroRecord (some e), [Call.create (outboundRecord zone r)])
  | .ok body =>
    (.ret { ID := body.uid, typ := r.typ, Name := normalizeRecordName r.Name zone,
            Value := r.Value, TTL := 0 } none,
     [Call.create (outboundRecord zone r)])

/-- Vercel `deleteRecord`: DELETE by the record's identifier. -/
def deleteRecord (env : Env) (r : LibdnsRecord) : GoResult PErr Unit × List Call :=
  match env.deleteResp with
  | some e => (.ret () (some e), [Call.delete r.ID])
  | none => (.ret () none, [Call.delete r.ID])

/-- Vercel `updateRecord`: delete by id, then — only when the delete
succeeded — create the record anew. -/
def updateRecord (env : Env) (zone : List Char) (r : LibdnsRecord) :
    GoResult PErr LibdnsRecord × List Call :=
  match deleteRecord env r with
  | (.ret _ (some e), calls) => (.ret zeroRecord (some e), calls)
  | (.ret _ none, calls) =>
    match createRecord env zone r with
    | (.ret v none, calls2) => (.ret v none, calls ++ calls2)
    | (.ret _ (some e), calls2) => (.ret zeroRecord (some e), calls ++ calls2)
    | (.panicked, calls2) => (.panicked, calls ++ calls2)
  | (.panicked, calls) => (.panicked, calls)

/-- Vercel `createOrUpdateRecord`: create when `len(r.ID) == 0`, else
update. -/
def createOrUpdateRecord (env : Env) (zone : List Char) (r : LibdnsRecord) :
    GoResult PErr LibdnsRecord × List Call :=
  if r.ID.length = 0 then createRecord env zone r else updateRecord env zone r

end Vercel

namespace Hetzner

/-- The Hetzner zone record (Go struct `zone`): id and default TTL in
seconds. -/
structure Zone where
  ID : List Char
  TTL : Nat

/-- `zone{}`, the zero zone Go returns on `getZoneData` error paths. -/
def zeroZone : Zone := { ID := [], TTL := 0 }

/-- The Hetzner wire record (Go struct `record`); `TTL *int` becomes an
`Option Nat`. -/
structure WireRecord where
  ID : List Char
  ZoneID : List Char
  typ : List Char
  Name : List Char
  Value : List Char
  TTL : Option Nat

/-- One provider call issued by a Hetzner operation. -/
inductive Call where
  | getZones (name : List Char)
  | getRecords (zoneID : List Char)
  | create (payload : WireRecord)
  | update (id : List Char) (payload : WireRecord)
  | delete (id : List Char)

/-- `true` exactly on update calls. -/
def Call.isUpdate : Call → Bool
  | .update _ _ => true
  | _ => false

/-- `true` exactly on delete calls. -/
def Call.isDelete : Call → Bool
  | .delete _ => true
  | _ => false

/-- `true` when no call in the list is an update or a delete call. -/
def hasNoUpdateOrDelete (calls : List Call) : Bool :=
  calls.all fun c => ! c.isUpdate && ! c.isDelete

/-- Decoded outcome of each Hetzner endpoint an operation may hit. -/
structure Env where
  zonesResp : Except PErr (List Zone)
  recordsResp : Except PErr (List WireRecord)
  createResp : Except PErr WireRecord
  updateResp : Except PErr WireRecord
  deleteResp : Option PErr

/-- Hetzner `getZoneData`: list zones by name; more than one match is the
"zone is ambiguous" error; otherwise Go reads `result.Zones[0]`, which
panics when the list is empty. -/
def getZoneData (env : Env) (name : List Char) : GoResult PErr Zone × List Call :=
  match env.zonesResp with
  | .error e => (.ret zeroZone (some e), [Call.getZones name])
  | .ok zs =>
    if zs.length > 1 then (.ret zeroZone (some PErr.ambiguous), [Call.getZones name])
    else
      match zs with
      | [] => (.panicked, [Call.getZones name])
      | z :: _ => (.ret z none, [Call.getZones name])

/-- The inbound translation applied to every Hetzner wire record: copy the
fields; a present wire TTL is taken as-is, an absent one falls back to the
zone's default TTL (both scaled to a nanosecond `time.Duration`). -/
def inboundRecord (zoneTTL : Nat) (r : WireRecord) : LibdnsRecord :=
  { ID := r.ID, typ := r.typ, Name := r.Name, Value := r.Value,
    TTL :=
      match r.TTL with
      | some t => t * nsPerSec
      | none => zoneTTL * nsPerSec }

/-- Hetzner `getAllRecords`: resolve the zone, list its records, translate
each inbound. -/
def getAllRecords (env : Env) (zone : List Char) :
    GoResult PErr (List LibdnsRecord) × List Call :=
  match getZoneData env zone with
  | (.panicked, calls) => (.panicked, calls)
  | (.ret _ (some e), calls) => (.ret [] (some e), calls)
  | (.ret zd none, calls) =>
    match env.recordsResp with
    | .error e => (.ret [] (some e), calls ++ [Call.getRecords zd.ID])
    | .ok rs =>
      (.ret (rs.map (inboundRecord zd.TTL)) none, calls ++ [Call.getRecords zd.ID])

/-- The outbound payload built by Hetzner `createRecord` and `updateRecord`:
name normalized, and `TTL: ptr(int(r.TTL.Seconds()))` — always present,
never substituted by a zone default. -/
def outboundRecord (zoneID : List Char) (zone : List Char) (r : LibdnsRecord) :
    WireRecord :=
  { ID := [], ZoneID := zoneID, typ := r.typ,
    Name := normalizeRecordName r.Name zone, Value := r.Value,
    TTL := some (r.TTL / nsPerSec) }

/-- Hetzner `createRecord`: resolve the zone, POST the outbound payload,
translate the response record inbound (zone default TTL as fallback). -/
def createRecord (env : Env) (zone : List Char) (r : LibdnsRecord) :
    GoResult PErr LibdnsRecord × List Call :=
  match getZoneData env zone with
  | (.panicked, calls) => (.panicked, calls)
  | (.ret _ (some e), calls) => (.ret zeroRecord (some e), calls)
  | (.ret zd none, calls) =>
    match env.createResp with
    | .error e => (.ret zeroRecord (some e), calls ++ [Call.create (outboundRecord zd.ID zone r)])
    | .ok w =>
      (.ret (inboundRecord zd.TTL w) none,
       calls ++ [Call.create (outboundRecord zd.ID zone r)])

/-- Hetzner `updateRecord`: resolve the zone, PUT the outbound payload
against the existing identifier, translate the response inbound. -/
def updateRecord (env : Env) (zone : List Char) (r : LibdnsRecord) :
    GoResult PErr LibdnsRecord × List Call :=
  match getZoneData env zone with
  | (.panicked, calls) => (.panicked, calls)
  | (.ret _ (some e), calls) => (.ret zeroRecord (some e), calls)
  | (.ret zd none, calls) =>
    match env.updateResp with
    | .error e => (.ret zeroRecord (some e), calls ++ [Call.update r.ID (outboundRecord zd.ID zone r)])
    | .ok w =>
      (.ret (inboundRecord zd.TTL w) none,
       calls ++ [Call.update r.ID (outboundRecord zd.ID zone r)])

/-- Hetzner `createOrUpdateRecord`: create when `len(r.ID) == 0`, else
update. -/
def createOrUpdateRecord (env : Env) (zone : List Char) (r : LibdnsRecord) :
    GoResult PErr LibdnsRecord × List Call :=
  if r.ID.length = 0 then createRecord env zone r else updateRecord env zone r

end Hetzner

/-! ### Sample inputs used to witness the theorems below on concrete data -/

/-- A sample resolved Hetzner zone with default TTL 300 seconds. -/
def sampleZone : Hetzner.Zone := { ID := ['z', '1'], TTL := 300 }

/-- A sample Hetzner wire record whose TTL field is absent. -/
def sampleWireNoTTL : Hetzner.WireRecord :=
  { ID := ['r', '1'], ZoneID := ['z', '1'], typ := ['T', 'X', 'T'],
    Name := ['w'], Value := ['v'], TTL := none }

/-- A sample Hetzner wire record whose TTL field is present (3600 s). -/
def sampleWire3600 : Hetzner.WireRecord :=
  { ID := ['r', '1'], ZoneID := ['z', '1'], typ := ['T', 'X', 'T'],
    Name := ['w'], Value := ['v'], TTL := some 3600 }

/-- A Hetzner environment that resolves exactly one zone. -/
def sampleHetznerEnv : Hetzner.Env :=
  { zonesResp := .ok [sampleZone],
    recordsResp := .ok [sampleWireNoTTL, sampleWire3600],
    createResp := .ok sampleWire3600,
    updateResp := .ok sampleWireNoTTL,
    deleteResp := none }

/-- A Hetzner environment whose zone listing holds two zones. -/
def sampleAmbiguousEnv : Hetzner.Env :=
  { zonesResp := .ok [sampleZone, sampleZone],
    recordsResp := .ok [],
    createResp := .ok sampleWire3600,
    updateResp := .ok sampleWire3600,
    deleteResp := none }

/-- A Hetzner environment whose zone listing is empty. -/
def sampleEmptyZonesEnv : Hetzner.Env :=
  { zonesResp := .ok [],
    recordsResp := .ok [],
    createResp := .ok sampleWire3600,
    updateResp := .ok sampleWire3600,
    deleteResp := none }

/-- A sample decoded Vercel create-response body. -/
def sampleVercelBody : Vercel.CreateRespBody :=
  { uid := ['u', '1'], typ := ['A'], Name := ['x'], Value := ['y'], TTL := 99 }

/-- A Vercel environment where every call succeeds. -/
def sampleVercelEnv : Vercel.Env :=
  { createResp := .ok sampleVercelBody, deleteResp := none }

/-- A Vercel environment whose delete endpoint fails with a 404. -/
def sampleVercelEnvDeleteFail : Vercel.Env :=
  { createResp := .ok sampleVercelBody, deleteResp := some (PErr.transport 404) }

/-- A sample not-yet-created logical record (empty ID, zero TTL). -/
def sampleRecordNew : LibdnsRecord :=
  { ID := [], typ := ['T', 'X', 'T'], Name := ['w'], Value := ['v'], TTL := 0 }

/-- A sample existing logical record (nonempty ID, TTL 120 s). -/
def sampleRecordOld : LibdnsRecord :=
  { ID := ['r', '1'], typ := ['T', 'X', 'T'], Name := ['w'], Value := ['v'],
    TTL := 120 * nsPerSec }

/-! ### Basic lemmas about `trimSuffix` and `unFQDN` -/

theorem trimSuffix_append (t z : List Char) : trimSuffix (t ++ z) z = t := by
  unfold trimSuffix
  rw [if_pos (List.suffix_append t z), List.length_append, Nat.add_sub_cancel,
    List.take_left]

theorem trimSuffix_of_not_suffix {s z : List Char} (h : ¬ z <:+ s) :
    trimSuffix s z = s := by
  unfold trimSuffix
  rw [if_neg h]

theorem trimSuffix_append_self {s z : List Char} (h : z <:+ s) :
    trimSuffix s z ++ z = s := by
  obtain ⟨t, rfl⟩ := h
  rw [trimSuffix_append]

theorem trimSuffix_isInfix (s z : List Char) : trimSuffix s z <:+: s := by
  by_cases h : z <:+ s
  · obtain ⟨t, rfl⟩ := h
    rw [trimSuffix_append]
    exact ⟨[], z, by simp⟩
  · rw [trimSuffix_of_not_suffix h]

theorem unFQDN_concat (t : List Char) : unFQDN (t ++ ['.']) = t :=
  trimSuffix_append t ['.']

theorem unFQDN_of_not_dot {s : List Char} (h : ¬ ['.'] <:+ s) : unFQDN s = s :=
  trimSuffix_of_not_suffix h

theorem unFQDN_isInfix (s : List Char) : unFQDN s <:+: s :=
  trimSuffix_isInfix s ['.']

/-- If `s` has no two consecutive dots anywhere, then stripping one trailing
dot leaves no trailing dot. -/
theorem not_dot_suffix_unFQDN {s : List Char}
    (h : ¬ ('.' :: '.' :: []) <:+: s) : ¬ ['.'] <:+ unFQDN s := by
  intro hd
  by_cases hs : ['.'] <:+ s
  · obtain ⟨p, rfl⟩ := hs
    rw [unFQDN_concat] at hd
    obtain ⟨q, rfl⟩ := hd
    exact h (List.IsSuffix.isInfix ⟨q, by simp⟩)
  · rw [unFQDN_of_not_dot hs] at hd
    exact hs hd

theorem unFQDN_eq_stripTrailingDot (s : List Char) :
    unFQDN s = stripTrailingDot s := by
  by_cases h : ['.'] <:+ s
  · obtain ⟨p, rfl⟩ := h
    rw [unFQDN_concat]
    unfold stripTrailingDot
    rw [if_pos (List.getLast?_concat p), List.dropLast_concat]
  · rw [unFQDN_of_not_dot h]
    unfold stripTrailingDot
    rw [if_neg]
    intro hc
    exact h ⟨s.dropLast, List.dropLast_append_getLast? '.' hc⟩

/-- Claim C1: for every record name and zone, `normalizeRecordName` (identical
in the Vercel and Hetzner providers) equals the spec's algorithm: strip one
trailing dot from the name, strip one trailing dot from the zone, remove the
stripped zone when it is a string suffix of the stripped name, and strip one
trailing dot from the result again. -/
theorem C1_normalize_matches_spec (name zone : List Char) :
    Vercel.normalizeRecordName name zone = Hetzner.normalizeRecordName name zone ∧
    Hetzner.normalizeRecordName name zone = normalizeSpecAlg name zone := by
  refine ⟨rfl, ?_⟩
  show unFQDN (trimSuffix (unFQDN name) (unFQDN zone)) = normalizeSpecAlg name zone
  simp only [normalizeSpecAlg, trimSuffix, unFQDN_eq_stripTrailingDot]

/-- Claim C2 is false as stated: `normalizeRecordName "a..." "x" = "a."` ends
with a trailing dot, and `normalizeRecordName "bb" "b" = "b"` ends with the
dot-stripped zone `"b"` as a suffix. -/
theorem C2_counterexample :
    ['.'] <:+ Hetzner.normalizeRecordName ['a', '.', '.', '.'] ['x'] ∧
    unFQDN ['b'] <:+ Hetzner.normalizeRecordName ['b', 'b'] ['b'] := by
  decide

/-- Claim C2 (amended): provided the record name contains no two consecutive
dots, and the dot-stripped name does not end with two copies of the
dot-stripped zone (concatenated directly, or separated by a single dot), the
output of `normalizeRecordName` never ends with a trailing dot and never ends
with the dot-stripped zone as a suffix. -/
theorem C2_normalized_name_is_zone_relative (name zone : List Char)
    (hnodots : ¬ ('.' :: '.' :: []) <:+: name)
    (hzz : ¬ (unFQDN zone ++ unFQDN zone) <:+ unFQDN name)
    (hzdz : ¬ (unFQDN zone ++ '.' :: unFQDN zone) <:+ unFQDN name) :
    ¬ ['.'] <:+ Hetzner.normalizeRecordName name zone ∧
    ¬ unFQDN zone <:+ Hetzner.normalizeRecordName name zone := by
  have htin : ¬ ('.' :: '.' :: []) <:+: trimSuffix (unFQDN name) (unFQDN zone) :=
    fun hin =>
      hnodots (hin.trans ((trimSuffix_isInfix _ _).trans (unFQDN_isInfix name)))
  constructor
  · exact not_dot_suffix_unFQDN htin
  · intro hzo
    by_cases h : unFQDN zone <:+ unFQDN name
    · have hsplit : trimSuffix (unFQDN name) (unFQDN zone) ++ unFQDN zone =
          unFQDN name := trimSuffix_append_self h
      by_cases hd : ['.'] <:+ trimSuffix (unFQDN name) (unFQDN zone)
      · obtain ⟨t0, ht⟩ := hd
        have hout : Hetzner.normalizeRecordName name zone = t0 := by
          show unFQDN (trimSuffix (unFQDN name) (unFQDN zone)) = t0
          rw [← ht, unFQDN_concat]
        rw [hout] at hzo
        obtain ⟨t1, ht1⟩ := hzo
        apply hzdz
        refine ⟨t1, ?_⟩
        rw [← hsplit, ← ht, ← ht1]
        simp
      · have hout : Hetzner.normalizeRecordName name zone =
            trimSuffix (unFQDN name) (unFQDN zone) := unFQDN_of_not_dot hd
        rw [hout] at hzo
        obtain ⟨t1, ht1⟩ := hzo
        apply hzz
        refine ⟨t1, ?_⟩
        rw [← hsplit, ← ht1]
        simp
    · have hnd : ¬ ['.'] <:+ unFQDN name := not_dot_suffix_unFQDN hnodots
      have hout : Hetzner.normalizeRecordName name zone = unFQDN name := by
        show unFQDN (trimSuffix (unFQDN name) (unFQDN zone)) = unFQDN name
        rw [trimSuffix_of_not_suffix h, unFQDN_of_not_dot hnd]
      rw [hout] at hzo
      exact h hzo

/-- Witness for the amended claim C2 at `name = "www.example.com."`,
`zone = "example.com"`: the hypotheses hold and the normalized name `"www"`
neither ends with a dot nor with the zone. -/
theorem C2_witness :
    (¬ ('.' :: '.' :: []) <:+:
        ['w', 'w', 'w', '.', 'e', 'x', 'a', 'm', 'p', 'l', 'e', '.', 'c', 'o', 'm', '.']) ∧
    (¬ ['.'] <:+
        Hetzner.normalizeRecordName
          ['w', 'w', 'w', '.', 'e', 'x', 'a', 'm', 'p', 'l', 'e', '.', 'c', 'o', 'm', '.']
          ['e', 'x', 'a', 'm', 'p', 'l', 'e', '.', 'c', 'o', 'm'] ∧
      ¬ unFQDN ['e', 'x', 'a', 'm', 'p', 'l', 'e', '.', 'c', 'o', 'm'] <:+
        Hetzner.normalizeRecordName
          ['w', 'w', 'w', '.', 'e', 'x', 'a', 'm', 'p', 'l', 'e', '.', 'c', 'o', 'm', '.']
          ['e', 'x', 'a', 'm', 'p', 'l', 'e', '.', 'c', 'o', 'm']) :=
  ⟨by decide,
    C2_normalized_name_is_zone_relative
      ['w', 'w', 'w', '.', 'e', 'x', 'a', 'm', 'p', 'l', 'e', '.', 'c', 'o', 'm', '.']
      ['e', 'x', 'a', 'm', 'p', 'l', 'e', '.', 'c', 'o', 'm']
      (by decide) (by decide) (by decide)⟩

/-! ### Re-qualification fixed point (claim C3) -/

theorem unFQDN_append_dot_cons (xs zone : List Char) (hz : zone ≠ []) :
    unFQDN (xs ++ '.' :: zone) = xs ++ '.' :: unFQDN zone := by
  by_cases h : ['.'] <:+ zone
  · obtain ⟨p, hp⟩ := h
    rw [← hp, unFQDN_concat]
    have hassoc : xs ++ '.' :: (p ++ ['.']) = (xs ++ '.' :: p) ++ ['.'] := by simp
    rw [hassoc, unFQDN_concat]
  · obtain hznil | ⟨l0, a, hza⟩ := List.eq_nil_or_concat zone
    · exact absurd hznil hz
    · have hnd : ¬ ['.'] <:+ (xs ++ '.' :: zone) := by
        intro hc
        apply h
        obtain ⟨t, ht⟩ := hc
        have hassoc : xs ++ '.' :: zone = (xs ++ '.' :: l0) ++ [a] := by
          rw [hza]; simp [List.concat_eq_append]
        have hlast : some '.' = some a := by
          rw [← List.getLast?_concat t, ht, hassoc, List.getLast?_concat]
        rw [hza]
        exact ⟨l0, by rw [Option.some_inj.mp hlast, List.concat_eq_append]⟩
      rw [unFQDN_of_not_dot hnd, unFQDN_of_not_dot h]

/-- Claim C3 is false as stated: with `name = "a..."` and the empty zone,
`normalizeRecordName name "" = "a."`, but re-qualifying and normalizing again
yields `"a"`. -/
theorem C3_counterexample :
    Hetzner.normalizeRecordName
        (Hetzner.normalizeRecordName ['a', '.', '.', '.'] [] ++ '.' :: []) [] ≠
      Hetzner.normalizeRecordName ['a', '.', '.', '.'] [] := by
  decide

/-- Claim C3 (amended): for every record name and every nonempty zone,
re-qualifying a normalized name with the zone and normalizing again is a
fixed point. -/
theorem C3_requalification_fixed_point (name zone : List Char) (hz : zone ≠ []) :
    Hetzner.normalizeRecordName
        (Hetzner.normalizeRecordName name zone ++ '.' :: zone) zone =
      Hetzner.normalizeRecordName name zone := by
  generalize Hetzner.normalizeRecordName name zone = out
  show unFQDN (trimSuffix (unFQDN (out ++ '.' :: zone)) (unFQDN zone)) = out
  rw [unFQDN_append_dot_cons out zone hz]
  have hassoc : out ++ '.' :: unFQDN zone = (out ++ ['.']) ++ unFQDN zone := by
    simp
  rw [hassoc, trimSuffix_append, unFQDN_concat]

/-- Witness for the amended claim C3 at `name = "www.example.com."`,
`zone = "example.com"`. -/
theorem C3_witness :
    (['e', 'x', 'a', 'm', 'p', 'l', 'e', '.', 'c', 'o', 'm'] : List Char) ≠ [] ∧
    Hetzner.normalizeRecordName
        (Hetzner.normalizeRecordName
            ['w', 'w', 'w', '.', 'e', 'x', 'a', 'm', 'p', 'l', 'e', '.', 'c', 'o', 'm', '.']
            ['e', 'x', 'a', 'm', 'p', 'l', 'e', '.', 'c', 'o', 'm'] ++
          '.' :: ['e', 'x', 'a', 'm', 'p', 'l', 'e', '.', 'c', 'o', 'm'])
        ['e', 'x', 'a', 'm', 'p', 'l', 'e', '.', 'c', 'o', 'm'] =
      Hetzner.normalizeRecordName
        ['w', 'w', 'w', '.', 'e', 'x', 'a', 'm', 'p', 'l', 'e', '.', 'c', 'o', 'm', '.']
        ['e', 'x', 'a', 'm', 'p', 'l', 'e', '.', 'c', 'o', 'm'] :=
  ⟨by decide,
    C3_requalification_fixed_point
      ['w', 'w', 'w', '.', 'e', 'x', 'a', 'm', 'p', 'l', 'e', '.', 'c', 'o', 'm', '.']
      ['e', 'x', 'a', 'm', 'p', 'l', 'e', '.', 'c', 'o', 'm'] (by decide)⟩


/-! ### Trace-shape lemmas -/

theorem hetzner_getZoneData_calls (env : Hetzner.Env) (zone : List Char) :
    (Hetzner.getZoneData env zone).2 = [Hetzner.Call.getZones zone] := by
  unfold Hetzner.getZoneData
  cases hz : env.zonesResp with
  | error e => rfl
  | ok zs =>
    dsimp only
    by_cases h : zs.length > 1
    · rw [if_pos h]
    · rw [if_neg h]
      cases zs <;> rfl

theorem hetzner_create_no_update_delete (env : Hetzner.Env) (zone : List Char)
    (r : LibdnsRecord) :
    Hetzner.hasNoUpdateOrDelete (Hetzner.createRecord env zone r).2 = true := by
  have h := hetzner_getZoneData_calls env zone
  unfold Hetzner.createRecord
  cases hg : Hetzner.getZoneData env zone with
  | mk res calls =>
    rw [hg] at h
    simp only at h
    subst h
    cases res with
    | panicked =>
      simp [Hetzner.hasNoUpdateOrDelete, Hetzner.Call.isUpdate, Hetzner.Call.isDelete]
    | ret v err =>
      cases err with
      | some e =>
        simp [Hetzner.hasNoUpdateOrDelete, Hetzner.Call.isUpdate, Hetzner.Call.isDelete]
      | none =>
        cases hc : env.createResp <;>
          simp [Hetzner.hasNoUpdateOrDelete, Hetzner.Call.isUpdate, Hetzner.Call.isDelete]

/-! ### Claims about the record translator, upsert policy and zone resolver -/

/-- Claim C4: Hetzner TTL translation is asymmetric.  Outbound, the payload
built by `createRecord` and `updateRecord` always carries a present `ttl`
equal to the caller's TTL in whole seconds, even when that is zero (no
zone-default substitution).  Inbound, an absent wire TTL falls back to the
zone default, while a present wire TTL of 3600 is kept regardless of the
zone default. -/
theorem C4_hetzner_ttl_asymmetry
    (env : Hetzner.Env) (zoneName : List Char) (r r0 : LibdnsRecord)
    (z : Hetzner.Zone) (rs : List Hetzner.WireRecord)
    (w1 w2 : Hetzner.WireRecord) (t : Nat)
    (hz : env.zonesResp = .ok [z])
    (hr : env.recordsResp = .ok rs)
    (h0 : r0.TTL = 0)
    (hw1 : w1.TTL = none)
    (hw2 : w2.TTL = some 3600) :
    (Hetzner.outboundRecord z.ID zoneName r).TTL = some (r.TTL / nsPerSec) ∧
    (Hetzner.outboundRecord z.ID zoneName r0).TTL = some 0 ∧
    (Hetzner.createRecord env zoneName r).2 =
      [Hetzner.Call.getZones zoneName,
       Hetzner.Call.create (Hetzner.outboundRecord z.ID zoneName r)] ∧
    (Hetzner.updateRecord env zoneName r).2 =
      [Hetzner.Call.getZones zoneName,
       Hetzner.Call.update r.ID (Hetzner.outboundRecord z.ID zoneName r)] ∧
    (Hetzner.getAllRecords env zoneName).1 =
      .ret (rs.map (Hetzner.inboundRecord z.TTL)) none ∧
    (Hetzner.inboundRecord t w1).TTL = t * nsPerSec ∧
    (Hetzner.inboundRecord t w2).TTL = 3600 * nsPerSec := by
  have hgz : Hetzner.getZoneData env zoneName =
      (.ret z none, [Hetzner.Call.getZones zoneName]) := by
    unfold Hetzner.getZoneData
    rw [hz]
    rfl
  refine ⟨rfl, ?_, ?_, ?_, ?_, ?_, ?_⟩
  · simp [Hetzner.outboundRecord, h0]
  · unfold Hetzner.createRecord
    rw [hgz]
    cases hc : env.createResp <;> simp [hc]
  · unfold Hetzner.updateRecord
    rw [hgz]
    cases hc : env.updateResp <;> simp [hc]
  · unfold Hetzner.getAllRecords
    rw [hgz, hr]
  · simp [Hetzner.inboundRecord, hw1]
  · simp [Hetzner.inboundRecord, hw2]

/-- Claim C5: the TTL sent in a Vercel create payload is always
`max(t, 60)` for `t` the caller's TTL in whole seconds; `t = 10` yields 60
and `t = 300` yields 300. -/
theorem C5_vercel_outbound_ttl_floor (env : Vercel.Env) (zone : List Char)
    (r : LibdnsRecord) :
    (Vercel.outboundRecord zone r).TTL = max (r.TTL / nsPerSec) 60 ∧
    (Vercel.createRecord env zone r).2 =
      [Vercel.Call.create (Vercel.outboundRecord zone r)] ∧
    (Vercel.outboundRecord zone { r with TTL := 10 * nsPerSec }).TTL = 60 ∧
    (Vercel.outboundRecord zone { r with TTL := 300 * nsPerSec }).TTL = 300 := by
  refine ⟨rfl, ?_, ?_, ?_⟩
  · unfold Vercel.createRecord
    cases hc : env.createResp <;> simp [hc]
  · show max (10 * nsPerSec / nsPerSec) 60 = 60
    norm_num [nsPerSec]
  · show max (300 * nsPerSec / nsPerSec) 60 = 300
    norm_num [nsPerSec]

/-- Claim C6: `createOrUpdateRecord` in both providers dispatches solely on
the identifier: an empty ID takes exactly the create path (and the trace
holds no update or delete call), a nonempty ID takes exactly the update
path. -/
theorem C6_upsert_dispatches_on_id
    (henv : Hetzner.Env) (venv : Vercel.Env) (zone : List Char)
    (rc ru : LibdnsRecord) (hrc : rc.ID = []) (hru : ru.ID ≠ []) :
    Hetzner.createOrUpdateRecord henv zone rc = Hetzner.createRecord henv zone rc ∧
    Vercel.createOrUpdateRecord venv zone rc = Vercel.createRecord venv zone rc ∧
    Hetzner.hasNoUpdateOrDelete (Hetzner.createOrUpdateRecord henv zone rc).2 = true ∧
    Vercel.hasNoDelete (Vercel.createOrUpdateRecord venv zone rc).2 = true ∧
    Hetzner.createOrUpdateRecord henv zone ru = Hetzner.updateRecord henv zone ru ∧
    Vercel.createOrUpdateRecord venv zone ru = Vercel.updateRecord venv zone ru := by
  have h1 : rc.ID.length = 0 := by rw [hrc]; rfl
  have h2 : ¬ ru.ID.length = 0 := fun hc => hru (List.length_eq_zero.mp hc)
  have hdh : Hetzner.createOrUpdateRecord henv zone rc =
      Hetzner.createRecord henv zone rc := by
    unfold Hetzner.createOrUpdateRecord
    rw [if_pos h1]
  have hdv : Vercel.createOrUpdateRecord venv zone rc =
      Vercel.createRecord venv zone rc := by
    unfold Vercel.createOrUpdateRecord
    rw [if_pos h1]
  refine ⟨hdh, hdv, ?_, ?_, ?_, ?_⟩
  · rw [hdh]
    exact hetzner_create_no_update_delete henv zone rc
  · rw [hdv]
    unfold Vercel.createRecord
    cases hc : venv.createResp <;> simp [Vercel.hasNoDelete, Vercel.Call.isDelete]
  · unfold Hetzner.createOrUpdateRecord
    rw [if_neg h2]
  · unfold Vercel.createOrUpdateRecord
    rw [if_neg h2]

/-- Claim C7: in the Vercel delete-then-create update path, a failing delete
makes `updateRecord` return that error with the zero record and no create
call; a successful delete is followed by exactly one create. -/
theorem C7_vercel_update_aborts_on_delete_failure
    (env1 env2 : Vercel.Env) (zone : List Char) (r : LibdnsRecord) (e : PErr)
    (hfail : env1.deleteResp = some e) (hok : env2.deleteResp = none) :
    Vercel.updateRecord env1 zone r =
      (.ret zeroRecord (some e), [Vercel.Call.delete r.ID]) ∧
    (Vercel.updateRecord env2 zone r).2 =
      [Vercel.Call.delete r.ID,
       Vercel.Call.create (Vercel.outboundRecord zone r)] := by
  constructor
  · unfold Vercel.updateRecord Vercel.deleteRecord
    rw [hfail]
  · unfold Vercel.updateRecord Vercel.deleteRecord Vercel.createRecord
    rw [hok]
    cases hc : env2.createResp <;> simp [hc]

/-- Claim C8: a Hetzner zone listing with two or more zones makes
`getZoneData` fail with the ambiguous-zone error, the zero zone, and no
further calls; `getAllRecords`, `createRecord` and `updateRecord` all
propagate it immediately. -/
theorem C8_ambiguous_zone_short_circuits
    (env : Hetzner.Env) (zoneName : List Char) (r : LibdnsRecord)
    (zs : List Hetzner.Zone) (hz : env.zonesResp = .ok zs)
    (hlen : 2 ≤ zs.length) :
    Hetzner.getZoneData env zoneName =
      (.ret Hetzner.zeroZone (some PErr.ambiguous),
       [Hetzner.Call.getZones zoneName]) ∧
    Hetzner.getAllRecords env zoneName =
      (.ret [] (some PErr.ambiguous), [Hetzner.Call.getZones zoneName]) ∧
    Hetzner.createRecord env zoneName r =
      (.ret zeroRecord (some PErr.ambiguous), [Hetzner.Call.getZones zoneName]) ∧
    Hetzner.updateRecord env zoneName r =
      (.ret zeroRecord (some PErr.ambiguous), [Hetzner.Call.getZones zoneName]) := by
  have hgz : Hetzner.getZoneData env zoneName =
      (.ret Hetzner.zeroZone (some PErr.ambiguous),
       [Hetzner.Call.getZones zoneName]) := by
    unfold Hetzner.getZoneData
    rw [hz]
    dsimp only
    have hgt : zs.length > 1 := hlen
    rw [if_pos hgt]
  refine ⟨hgz, ?_, ?_, ?_⟩
  · unfold Hetzner.getAllRecords
    rw [hgz]
  · unfold Hetzner.createRecord
    rw [hgz]
  · unfold Hetzner.updateRecord
    rw [hgz]

/-- Claim C9: a Hetzner zone listing with zero zones makes `getZoneData`
read index 0 of the empty result list: the operation is a runtime fault
(panic), not a cleanly returned "zone not found" error value. -/
theorem C9_empty_zone_list_panics
    (env : Hetzner.Env) (zoneName : List Char)
    (hz : env.zonesResp = .ok []) :
    Hetzner.getZoneData env zoneName = (.panicked, [Hetzner.Call.getZones zoneName]) := by
  unfold Hetzner.getZoneData
  rw [hz]
  rfl

/-- Claim C10: a successful Vercel `createRecord` (and the create leg of the
Vercel upsert) builds its result entirely from the input plus the decoded
`uid`: the response body's type, name, value and ttl fields are ignored and
the returned TTL is zero. -/
theorem C10_vercel_create_ignores_response_body
    (env : Vercel.Env) (zone : List Char) (r rc : LibdnsRecord)
    (body : Vercel.CreateRespBody)
    (hc : env.createResp = .ok body) (hrc : rc.ID = []) :
    Vercel.createRecord env zone r =
      (.ret { ID := body.uid, typ := r.typ,
              Name := Vercel.normalizeRecordName r.Name zone,
              Value := r.Value, TTL := 0 } none,
       [Vercel.Call.create (Vercel.outboundRecord zone r)]) ∧
    Vercel.createOrUpdateRecord env zone rc = Vercel.createRecord env zone rc := by
  constructor
  · unfold Vercel.createRecord
    rw [hc]
  · unfold Vercel.createOrUpdateRecord
    have h1 : rc.ID.length = 0 := by rw [hrc]; rfl
    rw [if_pos h1]

/-- Witness for claim C4 on the sample environment. -/
theorem C4_witness :
    sampleHetznerEnv.zonesResp = .ok [sampleZone] ∧
    sampleHetznerEnv.recordsResp = .ok [sampleWireNoTTL, sampleWire3600] ∧
    sampleRecordNew.TTL = 0 ∧
    sampleWireNoTTL.TTL = none ∧
    sampleWire3600.TTL = some 3600 ∧
    ((Hetzner.outboundRecord sampleZone.ID ['e', 'x'] sampleRecordOld).TTL =
        some (sampleRecordOld.TTL / nsPerSec) ∧
      (Hetzner.outboundRecord sampleZone.ID ['e', 'x'] sampleRecordNew).TTL = some 0 ∧
      (Hetzner.createRecord sampleHetznerEnv ['e', 'x'] sampleRecordOld).2 =
        [Hetzner.Call.getZones ['e', 'x'],
         Hetzner.Call.create (Hetzner.outboundRecord sampleZone.ID ['e', 'x'] sampleRecordOld)] ∧
      (Hetzner.updateRecord sampleHetznerEnv ['e', 'x'] sampleRecordOld).2 =
        [Hetzner.Call.getZones ['e', 'x'],
         Hetzner.Call.update sampleRecordOld.ID
           (Hetzner.outboundRecord sampleZone.ID ['e', 'x'] sampleRecordOld)] ∧
      (Hetzner.getAllRecords sampleHetznerEnv ['e', 'x']).1 =
        .ret ([sampleWireNoTTL, sampleWire3600].map (Hetzner.inboundRecord sampleZone.TTL)) none ∧
      (Hetzner.inboundRecord 86400 sampleWireNoTTL).TTL = 86400 * nsPerSec ∧
      (Hetzner.inboundRecord 86400 sampleWire3600).TTL = 3600 * nsPerSec) :=
  ⟨rfl, rfl, rfl, rfl, rfl,
    C4_hetzner_ttl_asymmetry sampleHetznerEnv ['e', 'x'] sampleRecordOld sampleRecordNew
      sampleZone [sampleWireNoTTL, sampleWire3600] sampleWireNoTTL sampleWire3600 86400
      rfl rfl rfl rfl rfl⟩

/-- Witness for claim C6 on the sample environments and records. -/
theorem C6_witness :
    sampleRecordNew.ID = [] ∧
    sampleRecordOld.ID ≠ [] ∧
    (Hetzner.createOrUpdateRecord sampleHetznerEnv ['e', 'x'] sampleRecordNew =
        Hetzner.createRecord sampleHetznerEnv ['e', 'x'] sampleRecordNew ∧
      Vercel.createOrUpdateRecord sampleVercelEnv ['e', 'x'] sampleRecordNew =
        Vercel.createRecord sampleVercelEnv ['e', 'x'] sampleRecordNew ∧
      Hetzner.hasNoUpdateOrDelete
          (Hetzner.createOrUpdateRecord sampleHetznerEnv ['e', 'x'] sampleRecordNew).2 = true ∧
      Vercel.hasNoDelete
          (Vercel.createOrUpdateRecord sampleVercelEnv ['e', 'x'] sampleRecordNew).2 = true ∧
      Hetzner.createOrUpdateRecord sampleHetznerEnv ['e', 'x'] sampleRecordOld =
        Hetzner.updateRecord sampleHetznerEnv ['e', 'x'] sampleRecordOld ∧
      Vercel.createOrUpdateRecord sampleVercelEnv ['e', 'x'] sampleRecordOld =
        Vercel.updateRecord sampleVercelEnv ['e', 'x'] sampleRecordOld) :=
  ⟨rfl, List.cons_ne_nil 'r' ['1'],
    C6_upsert_dispatches_on_id sampleHetznerEnv sampleVercelEnv ['e', 'x']
      sampleRecordNew sampleRecordOld rfl (List.cons_ne_nil 'r' ['1'])⟩

/-- Witness for claim C7 on the sample environments. -/
theorem C7_witness :
    sampleVercelEnvDeleteFail.deleteResp = some (PErr.transport 404) ∧
    sampleVercelEnv.deleteResp = none ∧
    (Vercel.updateRecord sampleVercelEnvDeleteFail ['e', 'x'] sampleRecordOld =
        (.ret zeroRecord (some (PErr.transport 404)),
         [Vercel.Call.delete sampleRecordOld.ID]) ∧
      (Vercel.updateRecord sampleVercelEnv ['e', 'x'] sampleRecordOld).2 =
        [Vercel.Call.delete sampleRecordOld.ID,
         Vercel.Call.create (Vercel.outboundRecord ['e', 'x'] sampleRecordOld)]) :=
  ⟨rfl, rfl,
    C7_vercel_update_aborts_on_delete_failure sampleVercelEnvDeleteFail sampleVercelEnv
      ['e', 'x'] sampleRecordOld (PErr.transport 404) rfl rfl⟩

/-- Witness for claim C8 on the two-zone sample environment. -/
theorem C8_witness :
    sampleAmbiguousEnv.zonesResp = .ok [sampleZone, sampleZone] ∧
    2 ≤ [sampleZone, sampleZone].length ∧
    (Hetzner.getZoneData sampleAmbiguousEnv ['e', 'x'] =
        (.ret Hetzner.zeroZone (some PErr.ambiguous),
         [Hetzner.Call.getZones ['e', 'x']]) ∧
      Hetzner.getAllRecords sampleAmbiguousEnv ['e', 'x'] =
        (.ret [] (some PErr.ambiguous), [Hetzner.Call.getZones ['e', 'x']]) ∧
      Hetzner.createRecord sampleAmbiguousEnv ['e', 'x'] sampleRecordNew =
        (.ret zeroRecord (some PErr.ambiguous), [Hetzner.Call.getZones ['e', 'x']]) ∧
      Hetzner.updateRecord sampleAmbiguousEnv ['e', 'x'] sampleRecordNew =
        (.ret zeroRecord (some PErr.ambiguous), [Hetzner.Call.getZones ['e', 'x']])) :=
  ⟨rfl, Nat.le_refl 2,
    C8_ambiguous_zone_short_circuits sampleAmbiguousEnv ['e', 'x'] sampleRecordNew
      [sampleZone, sampleZone] rfl (Nat.le_refl 2)⟩

/-- Witness for claim C9 on the empty-zone-list sample environment. -/
theorem C9_witness :
    sampleEmptyZonesEnv.zonesResp = .ok [] ∧
    Hetzner.getZoneData sampleEmptyZonesEnv ['e', 'x'] =
      (.panicked, [Hetzner.Call.getZones ['e', 'x']]) :=
  ⟨rfl, C9_empty_zone_list_panics sampleEmptyZonesEnv ['e', 'x'] rfl⟩

/-- Witness for claim C10 on the sample Vercel environment. -/
theorem C10_witness :
    sampleVercelEnv.createResp = .ok sampleVercelBody ∧
    sampleRecordNew.ID = [] ∧
    (Vercel.createRecord sampleVercelEnv ['e', 'x'] sampleRecordOld =
        (.ret { ID := sampleVercelBody.uid, typ := sampleRecordOld.typ,
                Name := Vercel.normalizeRecordName sampleRecordOld.Name ['e', 'x'],
                Value := sampleRecordOld.Value, TTL := 0 } none,
         [Vercel.Call.create (Vercel.outboundRecord ['e', 'x'] sampleRecordOld)]) ∧
      Vercel.createOrUpdateRecord sampleVercelEnv ['e', 'x'] sampleRecordNew =
        Vercel.createRecord sampleVercelEnv ['e', 'x'] sampleRecordNew) :=
  ⟨rfl, rfl,
    C10_vercel_create_ignores_response_body sampleVercelEnv ['e', 'x'] sampleRecordOld
      sampleRecordNew sampleVercelBody rfl rfl⟩

